import Mathlib

/-!
A shallow embedding of the rule-based scholarship advisory engine of
`LAB3_RuleBasedSystem.py`: the operator registry `OPS`, the condition
evaluator `evaluate_condition`, the rule matcher `rule_matches`, the
resolution engine `run_rules`, and the built-in rule set
`SCHOLARSHIP_RULES`, together with proofs of the specified properties.

Scalar values flowing through the engine (fact values and condition
literals) are modelled by `Value`: the numeric and string scalars the
engine actually compares. Numbers are modelled by `ℚ`; a comparison that
would raise a `TypeError` (a relational operator applied to a mixed
number/string pair) is modelled by `applyOp` returning `none`.
-/

namespace LAB3

/-- A scalar value: a number or a string. -/
inductive Value where
  | num (q : ℚ)
  | str (s : String)
deriving DecidableEq, Repr

/-- The six registered comparison operators. -/
inductive Op where
  | eq | ne | gt | ge | lt | le
deriving DecidableEq, Repr

/-- The operator registry `OPS`, as a lookup from a comparison symbol to
its operator; `none` models `op not in OPS`. -/
def OPS : String → Option Op
  | "==" => some .eq
  | "!=" => some .ne
  | ">" => some .gt
  | ">=" => some .ge
  | "<" => some .lt
  | "<=" => some .le
  | _ => none

/-- Equality testing on scalars: values of different kinds are simply
unequal; equality never raises. -/
def valueEq : Value → Value → Bool
  | .num a, .num b => a == b
  | .str a, .str b => a == b
  | _, _ => false

/-- Applying a registered operator to two scalar values. `==` and `!=`
are total; the four relational operators compare two numbers or two
strings and return `none` (a raised `TypeError`) on a mixed pair. -/
def applyOp : Op → Value → Value → Option Bool
  | .eq, a, b => some (valueEq a b)
  | .ne, a, b => some (!valueEq a b)
  | .gt, .num a, .num b => some (decide (b < a))
  | .gt, .str a, .str b => some (decide (b < a))
  | .ge, .num a, .num b => some (decide (b ≤ a))
  | .ge, .str a, .str b => some (!decide (a < b))
  | .lt, .num a, .num b => some (decide (a < b))
  | .lt, .str a, .str b => some (decide (a < b))
  | .le, .num a, .num b => some (decide (a ≤ b))
  | .le, .str a, .str b => some (!decide (b < a))
  | _, _, _ => none

/-- A facts mapping: a finite map from string field names to scalar
values, modelling the facts dict. -/
abbrev Facts := List (String × Value)

/-- `field in facts` / `facts[field]` for a possibly non-string key: a
non-string key is never present in the string-keyed facts dict. -/
def factsGet (facts : Facts) : Value → Option Value
  | .str s => facts.lookup s
  | _ => none

/-- `op in OPS` / `OPS[op]` for a possibly non-string key. -/
def opsGet : Value → Option Op
  | .str s => OPS s
  | _ => none

/-- `evaluate_condition(facts, cond)`: evaluate one condition
`[field, op, value]`. A condition that is not a triple, a field absent
from `facts`, an unregistered operator, and a comparison that raises all
evaluate to `false`. -/
def evaluate_condition (facts : Facts) (cond : List Value) : Bool :=
  match cond with
  | [field, op, value] =>
    match factsGet facts field, opsGet op with
    | some fv, some opf => (applyOp opf fv value).getD false
    | _, _ => false
  | _ => false

/-- A well-formed action dict `(decision, reason)`. -/
structure Action where
  decision : String
  reason : String
deriving DecidableEq, Repr

/-- The dynamic value stored under a rule's action key: either a
well-formed action dict or some other (malformed) scalar value. -/
inductive AVal where
  | dict (a : Action)
  | scalar (v : Value)
deriving DecidableEq, Repr

/-- A rule dict. Every field is optional because the corresponding key
may be absent from the dict; the engine reads them with defaults. -/
structure Rule where
  name : Option String
  priority : Option Int
  conditions : Option (List (List Value))
  action : Option AVal
deriving DecidableEq, Repr, Inhabited

/-- `rule_matches(facts, rule)`: all conditions true (AND logic), over
the rule's condition list defaulted to the empty list. -/
def rule_matches (facts : Facts) (rule : Rule) : Bool :=
  (rule.conditions.getD []).all fun c => evaluate_condition facts c

/-- The sort key used on fired rules: the priority defaulted to 0. -/
def priorityKey (r : Rule) : Int := r.priority.getD 0

/-- The ordering used for the stable descending sort of fired rules:
`a` may come before `b` iff the key of `a` is at least the key of `b`.
A stable sort by this relation is exactly a stable sort by priority
descending. -/
def ruleGE (a b : Rule) : Prop := priorityKey b ≤ priorityKey a

instance : DecidableRel ruleGE :=
  fun a b => inferInstanceAs (Decidable (priorityKey b ≤ priorityKey a))

instance : IsTotal Rule ruleGE :=
  ⟨fun a b => le_total (priorityKey b) (priorityKey a)⟩

instance : IsTrans Rule ruleGE :=
  ⟨fun _ _ _ h1 h2 => le_trans h2 h1⟩

/-- The fallback action returned when no rule fires. -/
def noMatchAction : AVal :=
  .dict ⟨"MANUAL REVIEW", "No specific rule matched (check rule configurations)"⟩

/-- The guard action used when the winning rule has no action key. -/
def noActionGuard : AVal :=
  .dict ⟨"REVIEW", "Matching rule has no defined action"⟩

/-- `run_rules(facts, rules)`: filter the matching rules; if none fired
return the fallback with an empty list, otherwise stable-sort the fired
rules by priority descending and return the top rule's action (or the
guard action when its action key is absent) with the sorted list. -/
def run_rules (facts : Facts) (rules : List Rule) : AVal × List Rule :=
  let fired := rules.filter fun r => rule_matches facts r
  if fired.isEmpty then (noMatchAction, [])
  else
    let fired_sorted := List.insertionSort ruleGE fired
    (fired_sorted.headI.action.getD noActionGuard, fired_sorted)

/-- The decimal literal `3.7`, written in lowest terms so that concrete
rule evaluations reduce in the kernel. -/
def q3_7 : ℚ := ⟨37, 10, by decide, by decide⟩

/-- The decimal literal `2.5` in lowest terms. -/
def q2_5 : ℚ := ⟨5, 2, by decide, by decide⟩

/-- The decimal literal `3.3` in lowest terms. -/
def q3_3 : ℚ := ⟨33, 10, by decide, by decide⟩

/-- The decimal literal `3.8` in lowest terms. -/
def q3_8 : ℚ := ⟨19, 5, by decide, by decide⟩

/-- The decimal literal `3.9` in lowest terms. -/
def q3_9 : ℚ := ⟨39, 10, by decide, by decide⟩

theorem q3_7_eq : q3_7 = 3.7 := by
  norm_num [q3_7, Rat.mk'_eq_divInt, Rat.divInt_eq_div]

theorem q2_5_eq : q2_5 = 2.5 := by
  norm_num [q2_5, Rat.mk'_eq_divInt, Rat.divInt_eq_div]

theorem q3_3_eq : q3_3 = 3.3 := by
  norm_num [q3_3, Rat.mk'_eq_divInt, Rat.divInt_eq_div]

theorem q3_8_eq : q3_8 = 3.8 := by
  norm_num [q3_8, Rat.mk'_eq_divInt, Rat.divInt_eq_div]

theorem q3_9_eq : q3_9 = 3.9 := by
  norm_num [q3_9, Rat.mk'_eq_divInt, Rat.divInt_eq_div]

/-- The built-in reference rule set. Field names are exactly those of
the source, including the space in the field `"co_curricular score"`. -/
def SCHOLARSHIP_RULES : List Rule :=
  [ ⟨some "Top merit candidate", some 100,
      some [[.str "cgpa", .str ">=", .num q3_7],
            [.str "co_curricular score", .str ">=", .num 80],
            [.str "family_income", .str "<=", .num 8000],
            [.str "disciplinary_actions", .str "==", .num 0]],
      some (.dict ⟨"AWARD FULL",
        "Excellent academic & co-curricular performance, with acceptable need"⟩)⟩,
    ⟨some "Low CGPA not eligible", some 95,
      some [[.str "cgpa", .str "<", .num q2_5]],
      some (.dict ⟨"REJECT", "CGPA below minimum scholarship requirement"⟩)⟩,
    ⟨some "Serious disciplinary record", some 90,
      some [[.str "disciplinary_actions", .str ">=", .num 2]],
      some (.dict ⟨"REJECT", "Too many disciplinary records"⟩)⟩,
    ⟨some "Good candidate partial scholarship", some 80,
      some [[.str "cgpa", .str ">=", .num q3_3],
            [.str "co_curricular score", .str ">=", .num 60],
            [.str "family_income", .str "<=", .num 12000],
            [.str "disciplinary_actions", .str "<=", .num 1]],
      some (.dict ⟨"AWARD PARTIAL",
        "Good academic & involvement record with moderate need"⟩)⟩,
    ⟨some "Need-based review", some 70,
      some [[.str "cgpa", .str ">=", .num q2_5],
            [.str "family_income", .str "<=", .num 4000]],
      some (.dict ⟨"REVIEW", "High need but borderline academic score"⟩)⟩,
    ⟨some "Default non-qualifier", some 1,
      some [],
      some (.dict ⟨"NOT ELIGIBLE",
        "Applicant did not meet the criteria for any defined scholarship or review."⟩)⟩ ]

/-- The facts of the first scenario exactly as the claim writes them,
with the underscored key `"co_curricular_score"`. -/
def factsUnderscore : Facts :=
  [("cgpa", .num q3_8), ("co_curricular_score", .num 85),
   ("family_income", .num 5000), ("disciplinary_actions", .num 0)]

/-- The facts of the first scenario keyed by the source's actual field
name `"co_curricular score"`, as the application builds them. -/
def factsAwardFull : Facts :=
  [("cgpa", .num q3_8), ("co_curricular score", .num 85),
   ("family_income", .num 5000), ("disciplinary_actions", .num 0)]

/-- The facts of the default-rule scenario. -/
def factsDefaultOnly : Facts :=
  [("cgpa", .num q3_9), ("co_curricular_score", .num 0),
   ("family_income", .num 20000), ("disciplinary_actions", .num 0)]

/-- C1 fails as stated: at a concrete input where no rule matches (empty
facts, empty rule list), the result of `run_rules` is not the claimed
pair of the action `{decision MANUAL_REVIEW, reason "No specific rule
matched"}` with an empty fired list; the code spells the decision
`"MANUAL REVIEW"` and uses a longer reason string. -/
theorem run_rules_fallback_text_counterexample :
    run_rules [] [] ≠
      (AVal.dict ⟨"MANUAL_REVIEW", "No specific rule matched"⟩, []) := by
  decide

/-- C1 (amended): whenever no rule matches, `run_rules` returns exactly
the fallback action `{decision "MANUAL REVIEW", reason "No specific rule
matched (check rule configurations)"}` with an empty fired list. -/
theorem run_rules_no_match_fallback (facts : Facts) (rules : List Rule)
    (h : ∀ r ∈ rules, rule_matches facts r = false) :
    run_rules facts rules = (noMatchAction, []) := by
  have hf : rules.filter (fun r => rule_matches facts r) = [] :=
    List.filter_eq_nil_iff.mpr (by simpa using h)
  simp [run_rules, hf]

/-- Witness for the amended C1 at the empty rule list. -/
theorem run_rules_no_match_fallback_witness :
    run_rules [] [] = (noMatchAction, []) :=
  run_rules_no_match_fallback [] [] (by simp)

/-- C3: a rule matches iff every condition in its (defaulted) condition
list evaluates true; in particular a rule with an empty condition list
matches any facts mapping. -/
theorem rule_matches_iff_all (facts : Facts) (rule : Rule) :
    (rule_matches facts rule = true ↔
      ∀ c ∈ rule.conditions.getD [], evaluate_condition facts c = true) ∧
    (rule.conditions = some [] → rule_matches facts rule = true) := by
  constructor
  · simp [rule_matches, List.all_eq_true]
  · intro h
    simp [rule_matches, h]

/-- A rule with an explicitly empty condition list, for witnesses. -/
def emptyCondRule : Rule := ⟨none, none, some [], none⟩

/-- Witness for C3 at a concrete empty-condition rule. -/
theorem rule_matches_iff_all_witness :
    (rule_matches [] emptyCondRule = true ↔
      ∀ c ∈ emptyCondRule.conditions.getD [], evaluate_condition [] c = true) ∧
    rule_matches [] emptyCondRule = true :=
  ⟨(rule_matches_iff_all [] emptyCondRule).1,
   (rule_matches_iff_all [] emptyCondRule).2 rfl⟩

/-- C10: a rule with no conditions key at all is treated as having an
empty condition list and matches any facts mapping. -/
theorem rule_matches_missing_conditions (facts : Facts) (rule : Rule)
    (h : rule.conditions = none) : rule_matches facts rule = true := by
  simp [rule_matches, h]

/-- Witness for C10 at the all-defaults rule. -/
theorem rule_matches_missing_conditions_witness :
    rule_matches [] ⟨none, none, none, none⟩ = true :=
  rule_matches_missing_conditions [] ⟨none, none, none, none⟩ rfl

/-- C8: `run_rules` is deterministic — two calls with identical facts
and rule-list arguments return identical results. -/
theorem run_rules_deterministic (f₁ f₂ : Facts) (r₁ r₂ : List Rule)
    (hf : f₁ = f₂) (hr : r₁ = r₂) :
    run_rules f₁ r₁ = run_rules f₂ r₂ := by
  rw [hf, hr]

/-- Witness for C8 at the reference rule set. -/
theorem run_rules_deterministic_witness :
    run_rules factsAwardFull SCHOLARSHIP_RULES =
      run_rules factsAwardFull SCHOLARSHIP_RULES :=
  run_rules_deterministic factsAwardFull factsAwardFull
    SCHOLARSHIP_RULES SCHOLARSHIP_RULES rfl rfl

/-- C6 fails as stated: with the facts keyed as the claim writes them
(underscored `co_curricular_score`), the conditions on the source field
`"co_curricular score"` find no such fact, so the winning decision is
`NOT ELIGIBLE` via the default rule rather than `AWARD FULL`. -/
theorem scenario_award_full_counterexample :
    (run_rules factsUnderscore SCHOLARSHIP_RULES).1 =
      AVal.dict ⟨"NOT ELIGIBLE",
        "Applicant did not meet the criteria for any defined scholarship or review."⟩ ∧
    (run_rules factsUnderscore SCHOLARSHIP_RULES).1 ≠
      AVal.dict ⟨"AWARD FULL",
        "Excellent academic & co-curricular performance, with acceptable need"⟩ := by
  decide

/-- C6 (amended): with the score fact keyed by the source's field name
`"co_curricular score"`, the winning decision is `AWARD FULL` and the
winner is the priority-100 rule `"Top merit candidate"`. -/
theorem scenario_award_full :
    (run_rules factsAwardFull SCHOLARSHIP_RULES).1 =
      AVal.dict ⟨"AWARD FULL",
        "Excellent academic & co-curricular performance, with acceptable need"⟩ ∧
    ((run_rules factsAwardFull SCHOLARSHIP_RULES).2).headI.name =
      some "Top merit candidate" ∧
    ((run_rules factsAwardFull SCHOLARSHIP_RULES).2).headI.priority = some 100 := by
  decide

/-- C7: with the facts of the default-rule scenario, exactly one rule
fires — the zero-condition default rule — and the winning decision is
`NOT ELIGIBLE`. -/
theorem scenario_default_only :
    (run_rules factsDefaultOnly SCHOLARSHIP_RULES).1 =
      AVal.dict ⟨"NOT ELIGIBLE",
        "Applicant did not meet the criteria for any defined scholarship or review."⟩ ∧
    (run_rules factsDefaultOnly SCHOLARSHIP_RULES).2 =
      [⟨some "Default non-qualifier", some 1, some [],
        some (.dict ⟨"NOT ELIGIBLE",
          "Applicant did not meet the criteria for any defined scholarship or review."⟩)⟩] := by
  decide

/-- Inserting a rule into a list commutes with filtering to a fixed
priority key: every element passed over before the insertion point has a
strictly larger key, so it cannot share the inserted rule's key. -/
theorem filter_key_orderedInsert (k : Int) (a : Rule) (l : List Rule) :
    (l.orderedInsert ruleGE a).filter (fun r => decide (priorityKey r = k)) =
      if priorityKey a = k then
        a :: l.filter (fun r => decide (priorityKey r = k))
      else l.filter (fun r => decide (priorityKey r = k)) := by
  induction l with
  | nil =>
    by_cases hak : priorityKey a = k <;> simp [List.orderedInsert, hak]
  | cons b l ih =>
    rw [List.orderedInsert]
    by_cases hab : ruleGE a b
    · rw [if_pos hab]
      by_cases hak : priorityKey a = k <;>
        by_cases hbk : priorityKey b = k <;>
          simp [List.filter_cons, hak, hbk]
    · rw [if_neg hab]
      have hlt : priorityKey a < priorityKey b := lt_of_not_le hab
      by_cases hak : priorityKey a = k
      · have hbk : ¬ priorityKey b = k := by
          intro hbk
          rw [hak, ← hbk] at hlt
          exact lt_irrefl _ hlt
        simp [List.filter_cons, hak, hbk, ih]
      · by_cases hbk : priorityKey b = k <;>
          simp [List.filter_cons, hak, hbk, ih]

/-- Stability of the engine's sort: the subsequence of rules carrying a
fixed priority key is untouched by the insertion sort. -/
theorem filter_key_insertionSort (k : Int) : ∀ l : List Rule,
    (List.insertionSort ruleGE l).filter (fun r => decide (priorityKey r = k)) =
      l.filter (fun r => decide (priorityKey r = k))
  | [] => rfl
  | a :: l => by
    simp only [List.insertionSort]
    rw [filter_key_orderedInsert, filter_key_insertionSort k l]
    by_cases hak : priorityKey a = k <;> simp [List.filter_cons, hak]

/-- C2: with at least one matching rule, the fired list returned by
`run_rules` is sorted by priority descending (`ruleGE`), and for every
priority value the subsequence of fired rules carrying that priority
equals the corresponding subsequence of the input-ordered matching
rules — the sort is stable. -/
theorem run_rules_sorted_stable (facts : Facts) (rules : List Rule)
    (h : ∃ r ∈ rules, rule_matches facts r = true) :
    ((run_rules facts rules).2).Sorted ruleGE ∧
      ∀ k : Int,
        ((run_rules facts rules).2).filter (fun r => decide (priorityKey r = k)) =
          (rules.filter (fun r => rule_matches facts r)).filter
            (fun r => decide (priorityKey r = k)) := by
  obtain ⟨r, hr, hm⟩ := h
  cases hfl : rules.filter (fun r => rule_matches facts r) with
  | nil =>
    exact absurd (hfl ▸ List.mem_filter.mpr ⟨hr, by simpa using hm⟩)
      (List.not_mem_nil r)
  | cons a as =>
    have h2 : (run_rules facts rules).2 = List.insertionSort ruleGE (a :: as) := by
      simp [run_rules, hfl]
    simp only [h2, hfl]
    exact ⟨List.sorted_insertionSort ruleGE (a :: as),
      fun k => filter_key_insertionSort k (a :: as)⟩

/-- A pair of equal-priority rules, for the stability witness. -/
def ruleTieB : Rule := ⟨some "B", some 80, some [], none⟩

/-- The second equal-priority rule of the stability witness. -/
def ruleTieA : Rule := ⟨some "A", some 80, some [], none⟩

/-- Witness for C2 at a two-rule tie supplied in the order `[B, A]`. -/
theorem run_rules_sorted_stable_witness :
    ((run_rules [] [ruleTieB, ruleTieA]).2).Sorted ruleGE ∧
      ∀ k : Int,
        ((run_rules [] [ruleTieB, ruleTieA]).2).filter
            (fun r => decide (priorityKey r = k)) =
          ([ruleTieB, ruleTieA].filter (fun r => rule_matches [] r)).filter
            (fun r => decide (priorityKey r = k)) :=
  run_rules_sorted_stable [] [ruleTieB, ruleTieA]
    ⟨ruleTieB, by decide, by decide⟩

/-- C9: in the fired list returned by `run_rules`, a rule lacking a
priority key behaves as priority 0: pairwise in list order, if the
earlier rule has no priority key then the later rule's key is at most 0,
and if the later rule has no priority key then the earlier rule's key is
at least 0; moreover the subsequence of key-0 rules (missing or explicit
0) keeps the input order, and nothing errors. -/
theorem run_rules_missing_priority_zero (facts : Facts) (rules : List Rule) :
    ((run_rules facts rules).2).Pairwise
      (fun a b => (a.priority = none → priorityKey b ≤ 0) ∧
        (b.priority = none → 0 ≤ priorityKey a)) ∧
      ((run_rules facts rules).2).filter (fun r => decide (priorityKey r = 0)) =
        (rules.filter (fun r => rule_matches facts r)).filter
          (fun r => decide (priorityKey r = 0)) := by
  cases hfl : rules.filter (fun r => rule_matches facts r) with
  | nil => simp [run_rules, hfl]
  | cons a as =>
    have h2 : (run_rules facts rules).2 = List.insertionSort ruleGE (a :: as) := by
      simp [run_rules, hfl]
    simp only [h2, hfl]
    constructor
    · refine (List.sorted_insertionSort ruleGE (a :: as)).imp ?_
      intro x y hxy
      refine ⟨fun hx => ?_, fun hy => ?_⟩
      · have hx0 : priorityKey x = 0 := by simp [priorityKey, hx]
        exact hx0 ▸ hxy
      · have hy0 : priorityKey y = 0 := by simp [priorityKey, hy]
        exact hy0 ▸ hxy
    · exact filter_key_insertionSort 0 (a :: as)

/-- A matching rule whose action value is present but malformed. -/
def malformedActionRule : Rule :=
  ⟨some "r", some 10, some [], some (.scalar (.str "oops"))⟩

/-- C5 fails as stated: a matching rule whose action value is present
but malformed (a bare string rather than an action dict) wins, and
`run_rules` returns that malformed value unchanged instead of the
claimed guard action `{decision "REVIEW", reason "Matching rule has no
defined action"}`. -/
theorem run_rules_malformed_action_counterexample :
    rule_matches [] malformedActionRule = true ∧
    (run_rules [] [malformedActionRule]).1 = AVal.scalar (.str "oops") ∧
    (run_rules [] [malformedActionRule]).1 ≠ noActionGuard := by
  decide

/-- C5 (amended): with at least one matching rule the fired list is
nonempty, the winning action is the stored action value of the first
sorted rule whenever its action key is present — even a malformed one —
and is the guard action exactly when the action key is absent. -/
theorem run_rules_winner_action (facts : Facts) (rules : List Rule)
    (h : ∃ r ∈ rules, rule_matches facts r = true) :
    (run_rules facts rules).2 ≠ [] ∧
    (∀ a, ((run_rules facts rules).2).headI.action = some a →
      (run_rules facts rules).1 = a) ∧
    (((run_rules facts rules).2).headI.action = none →
      (run_rules facts rules).1 = noActionGuard) := by
  obtain ⟨r, hr, hm⟩ := h
  cases hfl : rules.filter (fun x => rule_matches facts x) with
  | nil =>
    exact absurd (hfl ▸ List.mem_filter.mpr ⟨hr, by simpa using hm⟩)
      (List.not_mem_nil r)
  | cons a as =>
    have h1 : (run_rules facts rules).1 =
        (List.insertionSort ruleGE (a :: as)).headI.action.getD noActionGuard := by
      simp [run_rules, hfl]
    have h2 : (run_rules facts rules).2 = List.insertionSort ruleGE (a :: as) := by
      simp [run_rules, hfl]
    refine ⟨?_, ?_, ?_⟩
    · rw [h2]
      intro hnil
      have hlen := List.length_insertionSort ruleGE (a :: as)
      rw [hnil] at hlen
      simp at hlen
    · intro x hx
      rw [h2] at hx
      rw [h1, hx]
      rfl
    · intro hx
      rw [h2] at hx
      rw [h1, hx]
      rfl

/-- A matching rule with a well-formed action, for the C5 witness. -/
def presentActionRule : Rule :=
  ⟨some "p", some 5, some [], some (.dict ⟨"OK", "fine"⟩)⟩

/-- Witness for the amended C5 at a single matching rule. -/
theorem run_rules_winner_action_witness :
    (run_rules [] [presentActionRule]).2 ≠ [] ∧
    (∀ a, ((run_rules [] [presentActionRule]).2).headI.action = some a →
      (run_rules [] [presentActionRule]).1 = a) ∧
    (((run_rules [] [presentActionRule]).2).headI.action = none →
      (run_rules [] [presentActionRule]).1 = noActionGuard) :=
  run_rules_winner_action [] [presentActionRule]
    ⟨presentActionRule, by decide, by decide⟩

/-- C4: `evaluate_condition` is total and fail-safe: it returns `false`
on a condition that is not a triple of exactly three elements, on a
field absent from the facts mapping, on an unregistered operator symbol,
and on a comparison that raises; otherwise it returns the result of
applying the registered operator to the fact value and the condition's
literal value. -/
theorem evaluate_condition_fail_safe (facts : Facts) (cond : List Value) :
    (cond.length ≠ 3 → evaluate_condition facts cond = false) ∧
    (∀ f o v, cond = [f, o, v] → factsGet facts f = none →
      evaluate_condition facts cond = false) ∧
    (∀ f o v, cond = [f, o, v] → opsGet o = none →
      evaluate_condition facts cond = false) ∧
    (∀ f o v fv opf, cond = [f, o, v] → factsGet facts f = some fv →
      opsGet o = some opf → applyOp opf fv v = none →
      evaluate_condition facts cond = false) ∧
    (∀ f o v fv opf b, cond = [f, o, v] → factsGet facts f = some fv →
      opsGet o = some opf → applyOp opf fv v = some b →
      evaluate_condition facts cond = b) := by
  refine ⟨?_, ?_, ?_, ?_, ?_⟩
  · intro hlen
    match cond with
    | [] => rfl
    | [_] => rfl
    | [_, _] => rfl
    | [_, _, _] => exact absurd rfl hlen
    | _ :: _ :: _ :: _ :: _ => rfl
  · intro f o v hc hf
    subst hc
    cases ho : opsGet o <;> simp [evaluate_condition, hf, ho]
  · intro f o v hc ho
    subst hc
    cases hf : factsGet facts f <;> simp [evaluate_condition, hf, ho]
  · intro f o v fv opf hc hf ho ha
    subst hc
    simp [evaluate_condition, hf, ho, ha]
  · intro f o v fv opf b hc hf ho ha
    subst hc
    simp [evaluate_condition, hf, ho, ha]

/-- The facts mapping used by the C4 witness. -/
def cgpaFacts : Facts := [("cgpa", .num 3)]

/-- Witness for C4, exercising each clause at a concrete condition: a
two-element condition, an absent field, an unregistered symbol, a
number-versus-string comparison that raises, and a plain comparison. -/
theorem evaluate_condition_fail_safe_witness :
    evaluate_condition cgpaFacts [.str "cgpa", .str ">"] = false ∧
    evaluate_condition cgpaFacts [.str "gpa", .str ">", .num 1] = false ∧
    evaluate_condition cgpaFacts [.str "cgpa", .str "===", .num 1] = false ∧
    evaluate_condition cgpaFacts [.str "cgpa", .str ">", .str "x"] = false ∧
    evaluate_condition cgpaFacts [.str "cgpa", .str ">", .num 1] = true :=
  ⟨(evaluate_condition_fail_safe cgpaFacts [.str "cgpa", .str ">"]).1
      (by decide),
   (evaluate_condition_fail_safe cgpaFacts
      [.str "gpa", .str ">", .num 1]).2.1 (.str "gpa") (.str ">") (.num 1)
      rfl (by decide),
   (evaluate_condition_fail_safe cgpaFacts
      [.str "cgpa", .str "===", .num 1]).2.2.1 (.str "cgpa") (.str "===")
      (.num 1) rfl (by decide),
   (evaluate_condition_fail_safe cgpaFacts
      [.str "cgpa", .str ">", .str "x"]).2.2.2.1 (.str "cgpa") (.str ">")
      (.str "x") (.num 3) .gt rfl (by decide) (by decide) (by decide),
   (evaluate_condition_fail_safe cgpaFacts
      [.str "cgpa", .str ">", .num 1]).2.2.2.2 (.str "cgpa") (.str ">")
      (.num 1) (.num 3) .gt true rfl (by decide) (by decide) (by decide)⟩

end LAB3
